import Mathlib

/-!
Shallow embedding of the weather ingestion pipeline
(src/data_ingestion.py) and proofs of its specification claims.

Modelling conventions:
- Python strings are Lean Strings; where character-level reasoning is
  needed (file names) we work with List Char.
- Machine floats carried through unchanged by the pipeline are modelled
  as rationals (Rat); epoch timestamps as Nat seconds.
- External collaborators (Nominatim geocoding, the Open-Meteo client,
  the Snowflake connection) are oracles packaged in a World structure;
  a call to one is recorded as an Event in an effect trace.
- Python exceptions are modelled by the spec error taxonomy
  (PipelineError): the IndexError/KeyError raised while indexing the
  geocoding response is resolutionError, the pandas ValueError raised
  on mismatched column lengths (or a non-positive range step) is
  normalizationError, transport failures are fetchError and Snowflake
  statement failures are loadError.
-/

set_option autoImplicit false

namespace WeatherPipeline

/-- Error taxonomy of the pipeline (spec section 7). -/
inductive PipelineError where
  | resolutionError
  | fetchError
  | normalizationError
  | loadError
  deriving DecidableEq, Repr

/-- Location descriptor: a (city, state) tuple or a free-form string,
as in the LOCATIONS list of data_ingestion.py. -/
inductive Location where
  | cityState (city state : String)
  | freeform (q : String)
  deriving DecidableEq, Repr

/-- Display label: the tuple becomes "city, state", a free-form string
is used as is (line 178 of data_ingestion.py). -/
def Location.label : Location → String
  | Location.cityState city state => city ++ (", ") ++ state
  | Location.freeform q => q

/-- Module-level default location list of data_ingestion.py. -/
def LOCATIONS : List Location :=
  [ Location.cityState ("Atlanta") ("Georgia"),
    Location.cityState ("New York") ("New York"),
    Location.cityState ("Washington") ("DC"),
    Location.cityState ("San Francisco") ("CA"),
    Location.freeform ("Daniel Boone National Forest, USA") ]

/-- One candidate of the Nominatim geocoding response. The boundingbox
field holds numeric-like strings; a candidate missing the field is
modelled with none. -/
structure Candidate where
  boundingbox : Option (List String)
  deriving DecidableEq, Repr

/-- Bounding box with the four coordinates kept as the numeric-like
strings Nominatim returned, exactly as get_bbox stores them. -/
structure BBox where
  south_lat : String
  north_lat : String
  west_lon : String
  east_lon : String
  deriving DecidableEq, Repr

/-- Embedding of get_bbox applied to the decoded JSON body of the
geocoding response. resp.json()[0] on an empty list raises (IndexError),
result["boundingbox"] on a candidate without the field raises (KeyError),
and indexing bbox[0..3] raises when the list is too short; all are
resolution failures. -/
def get_bbox (resp : List Candidate) : Except PipelineError BBox :=
  match resp with
  | [] => Except.error PipelineError.resolutionError
  | c :: _ =>
    match c.boundingbox with
    | none => Except.error PipelineError.resolutionError
    | some bb =>
      match bb[0]?, bb[1]?, bb[2]?, bb[3]? with
      | some s, some n, some w, some e =>
        Except.ok { south_lat := s, north_lat := n, west_lon := w, east_lon := e }
      | _, _, _, _ => Except.error PipelineError.resolutionError

/-- Parameters of the grid-discovery request issued by get_grid_points. -/
structure GridParams where
  bounding_box : String
  models : String
  forecast_hours : Nat
  deriving DecidableEq, Repr

/-- Request parameters built by get_grid_points (lines 59-63):
bounding box rendered as "south,west,north,east", icon_global model,
zero forecast hours. -/
def gridParams (box : BBox) : GridParams :=
  { bounding_box :=
      box.south_lat ++ (",") ++ box.west_lon ++ (",") ++ box.north_lat ++ (",") ++ box.east_lon,
    models := "icon_global",
    forecast_hours := 0 }

/-- One entry of the grid-discovery response: a native grid point. -/
structure GridResp where
  latitude : Rat
  longitude : Rat
  deriving DecidableEq, Repr

/-- Parameters of the hourly-fetch request issued by get_weather. -/
structure WeatherParams where
  latitude : List Rat
  longitude : List Rat
  hourly : List String
  wind_speed_unit : String
  temperature_unit : String
  precipitation_unit : String
  past_hours : Nat
  forecast_hours : Nat
  deriving DecidableEq, Repr

/-- Request parameters built by get_weather (lines 78-92): fixed
variable list and units, and the mode-dependent window — past 24 hours
with 0 forecast hours when mode equals "history", otherwise 0 past
hours and 1 forecast hour. -/
def weatherParams (latitudes longitudes : List Rat) (mode : String) : WeatherParams :=
  { latitude := latitudes,
    longitude := longitudes,
    hourly := [("temperature_2m"), ("is_day"), ("precipitation_probability"), ("precipitation")],
    wind_speed_unit := "mph",
    temperature_unit := "fahrenheit",
    precipitation_unit := "inch",
    past_hours := if mode = ("history") then 24 else 0,
    forecast_hours := if mode = ("history") then 0 else 1 }

/-- Hourly block of one raw per-point response: window start and end
(epoch seconds), interval (seconds), and the four variable arrays in
the order requested. -/
structure Hourly where
  time : Nat
  timeEnd : Nat
  interval : Nat
  temperature_2m : List Rat
  is_day : List Rat
  precipitation_probability : List Rat
  precipitation : List Rat
  deriving DecidableEq, Repr

/-- One raw per-point response of the hourly fetch. -/
structure RawResponse where
  latitude : Rat
  longitude : Rat
  hourly : Hourly
  deriving DecidableEq, Repr

/-- Number of timestamps of the half-open window [s, e) stepped by d:
the count of k with s + k * d < e, as pd.date_range with
inclusive="left" produces. -/
def numSteps (s e d : Nat) : Nat := (e - s + d - 1) / d

/-- Flat record of the normalized table: one row of the DataFrame built
by parse_responses. -/
structure Row where
  timestamp : Nat
  location : String
  latitude : Rat
  longitude : Rat
  temperature_2m : Rat
  is_day : Rat
  precipitation_probability : Rat
  precipitation : Rat
  deriving DecidableEq, Repr

/-- Normalization of a single raw per-point response (body of the loop
of parse_responses, lines 101-118). pd.date_range raises on a
non-positive step, and the pd.DataFrame constructor raises when the
variable arrays do not all have the length of the timestamp sequence;
both surface as the normalization failure. -/
def parseSingle (r : RawResponse) (label : String) : Except PipelineError (List Row) :=
  if r.hourly.interval = 0 then Except.error PipelineError.normalizationError
  else
    let n := numSteps r.hourly.time r.hourly.timeEnd r.hourly.interval
    if r.hourly.temperature_2m.length = n ∧ r.hourly.is_day.length = n ∧
        r.hourly.precipitation_probability.length = n ∧ r.hourly.precipitation.length = n then
      Except.ok ((List.range n).map (fun k =>
        { timestamp := r.hourly.time + k * r.hourly.interval,
          location := label,
          latitude := r.latitude,
          longitude := r.longitude,
          temperature_2m := r.hourly.temperature_2m.getD k 0,
          is_day := r.hourly.is_day.getD k 0,
          precipitation_probability := r.hourly.precipitation_probability.getD k 0,
          precipitation := r.hourly.precipitation.getD k 0 }))
    else Except.error PipelineError.normalizationError

/-- Embedding of parse_responses: one table per response, in order,
aborting at the first response that fails to normalize. -/
def parse_responses (responses : List RawResponse) (label : String) :
    Except PipelineError (List (List Row)) :=
  match responses with
  | [] => Except.ok []
  | r :: rest =>
    match parseSingle r label with
    | Except.error e => Except.error e
    | Except.ok df =>
      match parse_responses rest label with
      | Except.error e => Except.error e
      | Except.ok dfs => Except.ok (df :: dfs)

/-- Decimal digit character (0-9 map to the ASCII digits). -/
def dchar (n : Nat) : Char := Char.ofNat (48 + n)

/-- Two-digit zero-padded decimal rendering, as strftime emits for the
component ranges a valid datetime can take. -/
def pad2 (n : Nat) : List Char := [dchar (n / 10 % 10), dchar (n % 10)]

/-- Four-digit zero-padded decimal rendering of the year. -/
def pad4 (n : Nat) : List Char :=
  [dchar (n / 1000 % 10), dchar (n / 100 % 10), dchar (n / 10 % 10), dchar (n % 10)]

/-- Broken-down UTC instant as datetime.now(timezone.utc) returns it;
micro is the sub-second part that strftime("%Y%m%d_%H%M%S") discards. -/
structure DateTime where
  year : Nat
  month : Nat
  day : Nat
  hour : Nat
  minute : Nat
  second : Nat
  micro : Nat
  deriving DecidableEq, Repr

/-- Component ranges guaranteed for any instant datetime produces
(stated loosely enough for fixed-width rendering: year below 10000 and
every other component below 100). -/
def DateTime.valid (t : DateTime) : Prop :=
  t.year < 10000 ∧ t.month < 100 ∧ t.day < 100 ∧ t.hour < 100 ∧ t.minute < 100 ∧ t.second < 100

instance (t : DateTime) : Decidable t.valid := by
  unfold DateTime.valid
  infer_instance

/-- View of an instant truncated to the second, the data
strftime("%Y%m%d_%H%M%S") depends on. -/
def DateTime.secondsView (t : DateTime) : Nat × Nat × Nat × Nat × Nat × Nat :=
  (t.year, t.month, t.day, t.hour, t.minute, t.second)

/-- Embedding of datetime.now(timezone.utc).strftime("%Y%m%d_%H%M%S"). -/
def strftimeTS (t : DateTime) : List Char :=
  pad4 t.year ++ (pad2 t.month ++ (pad2 t.day ++ ([(Char.ofNat 95)] ++
    (pad2 t.hour ++ (pad2 t.minute ++ pad2 t.second)))))

/-- Label sanitization of responses_to_json line 136: spaces replaced
with underscores, then commas removed. -/
def sanitizeLabel (l : List Char) : List Char :=
  (l.map (fun c => if c = (Char.ofNat 32) then Char.ofNat 95 else c)).filter
    (fun c => c != (Char.ofNat 44))

/-- File name built by responses_to_json line 138:
safe_label, mode and the second-truncated UTC run timestamp joined with
underscores, with a .json extension. -/
def fileName (label mode : String) (now : DateTime) : List Char :=
  sanitizeLabel label.data ++ ([(Char.ofNat 95)] ++ (mode.data ++ ([(Char.ofNat 95)] ++
    (strftimeTS now ++ (".json").data))))

/-- Civil date (year, month, day) of a day count since 1970-01-01,
the standard era-based conversion the datetime library performs. -/
def civilFromDays (z : Nat) : Nat × Nat × Nat :=
  let z2 := z + 719468
  let era := z2 / 146097
  let doe := z2 % 146097
  let yoe := (doe - doe / 1460 + doe / 36524 - doe / 146096) / 365
  let y := yoe + era * 400
  let doy := doe - (365 * yoe + yoe / 4 - yoe / 100)
  let mp := (5 * doy + 2) / 153
  let d := doy - (153 * mp + 2) / 5 + 1
  let m := if mp < 10 then mp + 3 else mp - 9
  (if m ≤ 2 then y + 1 else y, m, d)

/-- Rendering of an epoch timestamp as the ISO-8601-style string a
tz-aware pandas Timestamp stringifies to: "YYYY-MM-DD HH:MM:SS+00:00". -/
def renderTimestamp (n : Nat) : String :=
  let days := n / 86400
  let rem := n % 86400
  let c := civilFromDays days
  String.mk (pad4 c.1 ++ ([(Char.ofNat 45)] ++ (pad2 c.2.1 ++ ([(Char.ofNat 45)] ++
    (pad2 c.2.2 ++ ([(Char.ofNat 32)] ++ (pad2 (rem / 3600) ++ ([(Char.ofNat 58)] ++
    (pad2 (rem % 3600 / 60) ++ ([(Char.ofNat 58)] ++ (pad2 (rem % 60) ++ ("+00:00").data)))))))))))

/-- JSON leaf value of a serialized record: every field the pipeline
writes is a string or a number. -/
inductive JVal where
  | str (s : String)
  | num (q : Rat)
  deriving DecidableEq, Repr

/-- JSON object of one NDJSON line, keys in insertion order as
json.dumps preserves them. -/
def JObj : Type := List (String × JVal)

instance : DecidableEq JObj := by
  unfold JObj
  infer_instance

/-- One NDJSON line of responses_to_json (lines 143-147): the dict of
one DataFrame row with the timestamp stringified, plus the mode tag. -/
def serializeRow (r : Row) (mode : String) : JObj :=
  [ (("timestamp"), JVal.str (renderTimestamp r.timestamp)),
    (("location"), JVal.str r.location),
    (("latitude"), JVal.num r.latitude),
    (("longitude"), JVal.num r.longitude),
    (("temperature_2m"), JVal.num r.temperature_2m),
    (("is_day"), JVal.num r.is_day),
    (("precipitation_probability"), JVal.num r.precipitation_probability),
    (("precipitation"), JVal.num r.precipitation),
    (("mode"), JVal.str mode) ]

/-- Embedding of responses_to_json: the derived file name, and the file
content as the list of NDJSON lines, one per record, tables in order. -/
def responses_to_json (dataframes : List (List Row)) (label mode : String) (now : DateTime) :
    List Char × List JObj :=
  (fileName label mode now,
    (dataframes.map (fun df => df.map (fun r => serializeRow r mode))).flatten)

/-- Record as it stands on one re-read NDJSON line: the timestamp is
the ISO string the file holds. -/
structure SerRow where
  timestamp : String
  location : String
  latitude : Rat
  longitude : Rat
  temperature_2m : Rat
  is_day : Rat
  precipitation_probability : Rat
  precipitation : Rat
  mode : String
  deriving DecidableEq, Repr

/-- Reading one NDJSON line back: look every field up by key and
require its JSON type to match. -/
def rereadRow (o : JObj) : Option SerRow :=
  match List.lookup ("timestamp") o, List.lookup ("location") o,
      List.lookup ("latitude") o, List.lookup ("longitude") o,
      List.lookup ("temperature_2m") o, List.lookup ("is_day") o,
      List.lookup ("precipitation_probability") o, List.lookup ("precipitation") o,
      List.lookup ("mode") o with
  | some (JVal.str ts), some (JVal.str loc), some (JVal.num la), some (JVal.num lo),
      some (JVal.num te), some (JVal.num di), some (JVal.num pp), some (JVal.num pr),
      some (JVal.str md) =>
    some { timestamp := ts, location := loc, latitude := la, longitude := lo,
           temperature_2m := te, is_day := di, precipitation_probability := pp,
           precipitation := pr, mode := md }
  | _, _, _, _, _, _, _, _, _ => none

/-- Serialized view of an in-memory record: the row exactly as the code
puts it in memory right before json.dumps (timestamp stringified, mode
tag attached). -/
def Row.serializedView (r : Row) (mode : String) : SerRow :=
  { timestamp := renderTimestamp r.timestamp,
    location := r.location,
    latitude := r.latitude,
    longitude := r.longitude,
    temperature_2m := r.temperature_2m,
    is_day := r.is_day,
    precipitation_probability := r.precipitation_probability,
    precipitation := r.precipitation,
    mode := mode }

/-- Observable effect of one pipeline step: calls to the external
collaborators, warehouse connection lifecycle, and the temp file
lifecycle (file names stand for full paths, the temp directory being
run-independent). -/
inductive Event where
  | connect
  | geocodeCall (loc : Location)
  | gridCall (p : GridParams)
  | weatherCall (p : WeatherParams)
  | fileWrite (path : List Char)
  | put (path : List Char)
  | copyInto
  | fileRemove (path : List Char)
  | close
  deriving DecidableEq, Repr

/-- Oracle for the external collaborators: geocoding responses per
location, grid-discovery and hourly-fetch responses per request (none
is a transport failure surfacing after the retry budget, the fetch
error of the taxonomy), and whether each warehouse statement succeeds. -/
structure World where
  geocode : Location → List Candidate
  grid : GridParams → Option (List GridResp)
  weather : WeatherParams → Option (List RawResponse)
  putOk : Bool
  copyOk : Bool

/-- Embedding of upload_to_snowflake: the PUT statement, then — only
when PUT succeeded — the COPY INTO statement; a failure of either
raises and aborts the batch. -/
def upload_to_snowflake (w : World) (path : List Char) : List Event × Option PipelineError :=
  if w.putOk then
    if w.copyOk then ([Event.put path, Event.copyInto], none)
    else ([Event.put path, Event.copyInto], some PipelineError.loadError)
  else ([Event.put path], some PipelineError.loadError)

/-- Body of the per-location loop of ingest (lines 177-204): resolve
the bounding box, resolve the grid, fetch, normalize, serialize, then
(unless dry-run) stage and copy, and finally remove the file — the
removal is skipped when the load raised. The events of the iteration
and the error that aborted it (if any) are returned. -/
def processLocation (w : World) (mode : String) (dryRun : Bool) (now : DateTime)
    (loc : Location) : List Event × Option PipelineError :=
  let lbl := loc.label
  match get_bbox (w.geocode loc) with
  | Except.error e => ([Event.geocodeCall loc], some e)
  | Except.ok box =>
    let gp := gridParams box
    match w.grid gp with
    | none => ([Event.geocodeCall loc, Event.gridCall gp], some PipelineError.fetchError)
    | some grs =>
      let lats := grs.map (fun g => g.latitude)
      let lons := grs.map (fun g => g.longitude)
      let wp := weatherParams lats lons mode
      match w.weather wp with
      | none =>
        ([Event.geocodeCall loc, Event.gridCall gp, Event.weatherCall wp],
          some PipelineError.fetchError)
      | some resps =>
        match parse_responses resps lbl with
        | Except.error e =>
          ([Event.geocodeCall loc, Event.gridCall gp, Event.weatherCall wp], some e)
        | Except.ok dfs =>
          let fp := (responses_to_json dfs lbl mode now).1
          let base := [Event.geocodeCall loc, Event.gridCall gp, Event.weatherCall wp,
            Event.fileWrite fp]
          if dryRun then (base ++ [Event.fileRemove fp], none)
          else
            match upload_to_snowflake w fp with
            | (upEv, none) => (base ++ upEv ++ [Event.fileRemove fp], none)
            | (upEv, some e) => (base ++ upEv, some e)

/-- Location loop of ingest: locations processed strictly in order, the
first error aborting all remaining locations. -/
def ingestLoop (w : World) (mode : String) (dryRun : Bool) (now : DateTime) :
    List Location → List Event × Option PipelineError
  | [] => ([], none)
  | loc :: rest =>
    match processLocation w mode dryRun now loc with
    | (ev, some e) => (ev, some e)
    | (ev, none) =>
      let tail := ingestLoop w mode dryRun now rest
      (ev ++ tail.1, tail.2)

/-- Embedding of ingest: locations default to LOCATIONS when none are
given; unless dry-run, the warehouse connection is opened before the
loop and — the try/finally — closed unconditionally after it, whether
or not the loop aborted with an error. -/
def ingest (w : World) (mode : String) (locations : Option (List Location))
    (dryRun : Bool) (now : DateTime) : List Event × Option PipelineError :=
  let locs := locations.getD LOCATIONS
  if dryRun then ingestLoop w mode dryRun now locs
  else
    let body := ingestLoop w mode dryRun now locs
    (Event.connect :: body.1 ++ [Event.close], body.2)

/-- Predicate for warehouse-touching events: connection creation and
the two load statements. -/
def Event.isWarehouse : Event → Bool
  | Event.connect => true
  | Event.put _ => true
  | Event.copyInto => true
  | _ => false

/-- Predicate for temp-file lifecycle events. -/
def Event.isFile : Event → Bool
  | Event.fileWrite _ => true
  | Event.fileRemove _ => true
  | _ => false

/-- Write/remove pairing of a list of file names. -/
def writeRemovePairs (names : List (List Char)) : List Event :=
  names.flatMap (fun n => [Event.fileWrite n, Event.fileRemove n])

/-- Label transformation as the spec claim words it — spaces and commas
stripped (removed) from the label. Written from the claim, not from the
code, to compare against sanitizeLabel. -/
def specStrippedLabel (l : List Char) : List Char :=
  l.filter (fun c => !(c == Char.ofNat 32 || c == Char.ofNat 44))

/-- Sample well-formed raw response: a 3-hour window at one-hour
interval with aligned variable arrays. -/
def sampleResponse : RawResponse :=
  { latitude := 1, longitude := 2,
    hourly :=
      { time := 0, timeEnd := 10800, interval := 3600,
        temperature_2m := [10, 11, 12],
        is_day := [0, 1, 0],
        precipitation_probability := [5, 6, 7],
        precipitation := [0, 0, 1] } }

/-- Sample misaligned raw response: the temperature array is one element
shorter than the 3-element timestamp sequence. -/
def badResponse : RawResponse :=
  { latitude := 1, longitude := 2,
    hourly :=
      { time := 0, timeEnd := 10800, interval := 3600,
        temperature_2m := [10, 11],
        is_day := [0, 1, 0],
        precipitation_probability := [5, 6, 7],
        precipitation := [0, 0, 1] } }

/-- Sample flat record. -/
def sampleRow : Row :=
  { timestamp := 1704067199, location := "Atlanta, Georgia", latitude := 1, longitude := 2,
    temperature_2m := 55, is_day := 1, precipitation_probability := 20,
    precipitation := 0 }

/-- Sample run instant. -/
def dt1 : DateTime :=
  { year := 2024, month := 3, day := 7, hour := 4, minute := 5, second := 6, micro := 123 }

/-- Same instant as dt1 up to the second, different sub-second part. -/
def dt1b : DateTime :=
  { year := 2024, month := 3, day := 7, hour := 4, minute := 5, second := 6, micro := 999 }

/-- Run instant one second after dt1. -/
def dt2 : DateTime :=
  { year := 2024, month := 3, day := 7, hour := 4, minute := 5, second := 7, micro := 0 }

/-- World in which every collaborator succeeds; the geocoding lookup
returns one candidate with a bounding box, the grid and fetch responses
are empty (a box intersecting no grid cell). -/
def happyWorld : World :=
  { geocode := fun _ => [{ boundingbox := some [("33.6"), ("34.0"), ("-84.6"), ("-84.2")] }],
    grid := fun _ => some [],
    weather := fun _ => some [],
    putOk := true,
    copyOk := true }

/-- World identical to happyWorld except that the PUT statement fails. -/
def putFailWorld : World :=
  { geocode := fun _ => [{ boundingbox := some [("33.6"), ("34.0"), ("-84.6"), ("-84.2")] }],
    grid := fun _ => some [],
    weather := fun _ => some [],
    putOk := false,
    copyOk := true }

/-- World in which the geocoding lookup returns zero candidates. -/
def emptyGeoWorld : World :=
  { geocode := fun _ => [],
    grid := fun _ => some [],
    weather := fun _ => some [],
    putOk := true,
    copyOk := true }

/-- Sample free-form location. -/
def sampleLoc : Location := Location.freeform ("Atlanta")

/-- Characterization of the reconstructed timestamp count: index k is
inside the half-open window exactly when its timestamp is before the
window end. -/
lemma lt_numSteps_iff (s e d k : Nat) (hd : 0 < d) :
    k < numSteps s e d ↔ s + k * d < e := by
  have h1 : k < (e - s + d - 1) / d ↔ (k + 1) * d ≤ e - s + d - 1 := by
    rw [Nat.lt_iff_add_one_le, Nat.le_div_iff_mul_le hd]
  have h2 : (k + 1) * d = k * d + d := by ring
  rw [numSteps, h1, h2]
  generalize k * d = t
  omega

/-- Normalization of one response fails only with the normalization
error. -/
lemma parseSingle_error_eq (r : RawResponse) (label : String) (e : PipelineError)
    (h : parseSingle r label = Except.error e) : e = PipelineError.normalizationError := by
  unfold parseSingle at h
  split at h
  · injection h with h2
    exact h2.symm
  · dsimp only at h
    split at h
    · exact absurd h (by simp)
    · injection h with h2
      exact h2.symm

/-- Normalization of a response list fails only with the normalization
error. -/
lemma parse_responses_error_eq (responses : List RawResponse) (label : String)
    (e : PipelineError) (h : parse_responses responses label = Except.error e) :
    e = PipelineError.normalizationError := by
  induction responses with
  | nil => simp [parse_responses] at h
  | cons x rest ih =>
    unfold parse_responses at h
    cases hps : parseSingle x label with
    | error e2 =>
      rw [hps] at h
      injection h with h2
      rw [← h2]
      exact parseSingle_error_eq x label e2 hps
    | ok df =>
      rw [hps] at h
      cases hrec : parse_responses rest label with
      | error e2 =>
        rw [hrec] at h
        injection h with h2
        rw [h2] at hrec
        exact ih hrec
      | ok dfs =>
        rw [hrec] at h
        exact absurd h (by simp)

/-- Re-reading one serialized line recovers the serialized view of the
record. -/
lemma rereadRow_serializeRow (r : Row) (mode : String) :
    rereadRow (serializeRow r mode) = some (r.serializedView mode) := rfl

/-- Every serialized line carries the mode tag. -/
lemma lookup_mode_serializeRow (r : Row) (mode : String) :
    List.lookup ("mode") (serializeRow r mode) = some (JVal.str mode) := rfl

/-- Claim C2: for every pair of latitude/longitude sequences, the
hourly-fetch request built by get_weather uses the window determined by
the mode — history requests a past window of 24 hours with 0 forward
hours, forecast requests 0 past hours with 1 forward hour. -/
theorem claim_C2 (latitudes longitudes : List Rat) :
    ((weatherParams latitudes longitudes ("history")).past_hours = 24 ∧
      (weatherParams latitudes longitudes ("history")).forecast_hours = 0) ∧
    (weatherParams latitudes longitudes ("forecast")).past_hours = 0 ∧
    (weatherParams latitudes longitudes ("forecast")).forecast_hours = 1 :=
  ⟨⟨rfl, rfl⟩, rfl, rfl⟩

/-- Claim C3: for every raw per-point response with window start s, end
e and positive interval d whose variable arrays align, the normalizer
reconstructs the timestamps as the half-open arithmetic progression
s, s+d, s+2d, ... — including s (when the window is nonempty) and
excluding e — and produces exactly one record per timestamp index, each
stamped with the owning label and the point's latitude and longitude. -/
theorem claim_C3 (r : RawResponse) (label : String)
    (hd : 0 < r.hourly.interval)
    (ha : r.hourly.temperature_2m.length =
        numSteps r.hourly.time r.hourly.timeEnd r.hourly.interval ∧
      r.hourly.is_day.length = numSteps r.hourly.time r.hourly.timeEnd r.hourly.interval ∧
      r.hourly.precipitation_probability.length =
        numSteps r.hourly.time r.hourly.timeEnd r.hourly.interval ∧
      r.hourly.precipitation.length =
        numSteps r.hourly.time r.hourly.timeEnd r.hourly.interval) :
    ∃ rows, parseSingle r label = Except.ok rows ∧
      rows.map Row.timestamp =
        (List.range (numSteps r.hourly.time r.hourly.timeEnd r.hourly.interval)).map
          (fun k => r.hourly.time + k * r.hourly.interval) ∧
      (∀ k, k < numSteps r.hourly.time r.hourly.timeEnd r.hourly.interval ↔
        r.hourly.time + k * r.hourly.interval < r.hourly.timeEnd) ∧
      (r.hourly.time < r.hourly.timeEnd → r.hourly.time ∈ rows.map Row.timestamp) ∧
      (∀ t ∈ rows.map Row.timestamp, t < r.hourly.timeEnd) ∧
      (∀ row ∈ rows, row.location = label ∧ row.latitude = r.latitude ∧
        row.longitude = r.longitude) := by
  have hne : r.hourly.interval ≠ 0 := Nat.pos_iff_ne_zero.mp hd
  have hok : parseSingle r label = Except.ok
      ((List.range (numSteps r.hourly.time r.hourly.timeEnd r.hourly.interval)).map (fun k =>
        { timestamp := r.hourly.time + k * r.hourly.interval,
          location := label,
          latitude := r.latitude,
          longitude := r.longitude,
          temperature_2m := r.hourly.temperature_2m.getD k 0,
          is_day := r.hourly.is_day.getD k 0,
          precipitation_probability := r.hourly.precipitation_probability.getD k 0,
          precipitation := r.hourly.precipitation.getD k 0 })) := by
    unfold parseSingle
    rw [if_neg hne]
    dsimp only
    rw [if_pos ha]
  refine ⟨_, hok, ?_, ?_, ?_, ?_, ?_⟩
  · simp [List.map_map, Function.comp]
  · intro k
    exact lt_numSteps_iff _ _ _ _ hd
  · intro hlt
    simp only [List.map_map, List.mem_map, Function.comp, List.mem_range]
    refine ⟨0, ?_, by simp⟩
    rw [lt_numSteps_iff _ _ _ _ hd]
    simpa using hlt
  · intro t ht
    simp only [List.map_map, List.mem_map, Function.comp, List.mem_range] at ht
    obtain ⟨k, hk, rfl⟩ := ht
    exact (lt_numSteps_iff _ _ _ _ hd).mp hk
  · intro row hrow
    simp only [List.mem_map, List.mem_range] at hrow
    obtain ⟨k, hk, rfl⟩ := hrow
    exact ⟨rfl, rfl, rfl⟩

/-- Witness for claim C3 at the sample aligned response. -/
theorem claim_C3_witness :
    ∃ rows, parseSingle sampleResponse ("Atlanta") = Except.ok rows ∧
      rows.map Row.timestamp =
        (List.range (numSteps sampleResponse.hourly.time sampleResponse.hourly.timeEnd
          sampleResponse.hourly.interval)).map
          (fun k => sampleResponse.hourly.time + k * sampleResponse.hourly.interval) ∧
      (∀ k, k < numSteps sampleResponse.hourly.time sampleResponse.hourly.timeEnd
          sampleResponse.hourly.interval ↔
        sampleResponse.hourly.time + k * sampleResponse.hourly.interval <
          sampleResponse.hourly.timeEnd) ∧
      (sampleResponse.hourly.time < sampleResponse.hourly.timeEnd →
        sampleResponse.hourly.time ∈ rows.map Row.timestamp) ∧
      (∀ t ∈ rows.map Row.timestamp, t < sampleResponse.hourly.timeEnd) ∧
      (∀ row ∈ rows, row.location = ("Atlanta") ∧ row.latitude = sampleResponse.latitude ∧
        row.longitude = sampleResponse.longitude) :=
  claim_C3 sampleResponse ("Atlanta") (by decide) (by decide)

/-- Claim C4: for every raw response list containing a response whose
hourly variable arrays do not all have the reconstructed timestamp
sequence length, normalization fails with the normalization error, so
no records are produced for the batch. -/
theorem claim_C4 (responses : List RawResponse) (label : String) (r : RawResponse)
    (hr : r ∈ responses) (hd : 0 < r.hourly.interval)
    (hbad : ¬(r.hourly.temperature_2m.length =
        numSteps r.hourly.time r.hourly.timeEnd r.hourly.interval ∧
      r.hourly.is_day.length = numSteps r.hourly.time r.hourly.timeEnd r.hourly.interval ∧
      r.hourly.precipitation_probability.length =
        numSteps r.hourly.time r.hourly.timeEnd r.hourly.interval ∧
      r.hourly.precipitation.length =
        numSteps r.hourly.time r.hourly.timeEnd r.hourly.interval)) :
    parse_responses responses label = Except.error PipelineError.normalizationError := by
  induction responses with
  | nil => cases hr
  | cons x rest ih =>
    rcases List.mem_cons.mp hr with h | h
    · subst h
      have hx : parseSingle r label = Except.error PipelineError.normalizationError := by
        unfold parseSingle
        rw [if_neg (Nat.pos_iff_ne_zero.mp hd)]
        dsimp only
        rw [if_neg hbad]
      unfold parse_responses
      rw [hx]
    · unfold parse_responses
      cases hps : parseSingle x label with
      | error e =>
        rw [parseSingle_error_eq x label e hps]
      | ok df =>
        rw [ih h]

/-- Witness for claim C4 at the sample misaligned response (temperature
array one element shorter than the timestamp sequence). -/
theorem claim_C4_witness :
    parse_responses [badResponse] ("Atlanta") =
      Except.error PipelineError.normalizationError :=
  claim_C4 [badResponse] ("Atlanta") badResponse (by decide) (by decide) (by decide)

/-- Claim C8: serializing a batch to the line-delimited file and
re-reading it yields, line for line, exactly the serialized view of the
in-memory records (same location, latitude, longitude and the four
variables, the timestamp as its ISO rendering), and every line carries
the mode tag of the batch. -/
theorem claim_C8 (dataframes : List (List Row)) (label mode : String) (now : DateTime) :
    ((responses_to_json dataframes label mode now).2).map rereadRow =
      dataframes.flatten.map (fun r => some (r.serializedView mode)) ∧
    ∀ o ∈ (responses_to_json dataframes label mode now).2,
      List.lookup ("mode") o = some (JVal.str mode) := by
  constructor
  · have hfun : (rereadRow ∘ fun r => serializeRow r mode) =
        fun r => some (r.serializedView mode) := by
      funext r
      exact rereadRow_serializeRow r mode
    simp [responses_to_json, List.map_flatten, List.map_map, hfun]
  · intro o ho
    simp only [responses_to_json, List.mem_flatten, List.mem_map] at ho
    obtain ⟨l, ⟨df, hdf, rfl⟩, ho⟩ := ho
    obtain ⟨r, hrdf, rfl⟩ := List.mem_map.mp ho
    exact lookup_mode_serializeRow r mode

/-- Claim C10: for every mode string other than history — not only
forecast — get_weather silently requests the forecast window of 0 past
hours and 1 forward hour, and the unvalidated mode value propagates
into the mode tag of every serialized record. -/
theorem claim_C10 (mode : String) (hm : mode ≠ ("history"))
    (latitudes longitudes : List Rat)
    (dataframes : List (List Row)) (label : String) (now : DateTime) :
    (weatherParams latitudes longitudes mode).past_hours = 0 ∧
    (weatherParams latitudes longitudes mode).forecast_hours = 1 ∧
    ∀ o ∈ (responses_to_json dataframes label mode now).2,
      List.lookup ("mode") o = some (JVal.str mode) := by
  refine ⟨?_, ?_, ?_⟩
  · simp [weatherParams, hm]
  · simp [weatherParams, hm]
  · intro o ho
    simp only [responses_to_json, List.mem_flatten, List.mem_map] at ho
    obtain ⟨l, ⟨df, hdf, rfl⟩, ho⟩ := ho
    obtain ⟨r, hrdf, rfl⟩ := List.mem_map.mp ho
    exact lookup_mode_serializeRow r mode

/-- Witness for claim C10 at the arbitrary mode string purple. -/
theorem claim_C10_witness :
    (weatherParams [] [] ("purple")).past_hours = 0 ∧
    (weatherParams [] [] ("purple")).forecast_hours = 1 ∧
    ∀ o ∈ (responses_to_json [[sampleRow]] ("Atlanta") ("purple") dt1).2,
      List.lookup ("mode") o = some (JVal.str ("purple")) :=
  claim_C10 ("purple") (by decide) [] [] [[sampleRow]] ("Atlanta") dt1

/-- Bounding-box resolution fails only with the resolution error. -/
lemma get_bbox_error_eq (resp : List Candidate) (e : PipelineError)
    (h : get_bbox resp = Except.error e) : e = PipelineError.resolutionError := by
  unfold get_bbox at h
  repeat' split at h
  all_goals first
    | (injection h with h2; exact h2.symm)
    | simp at h

/-- Exhaustive case analysis of one location's iteration: the trace and
the aborting error take exactly one of eight shapes, one per exit path
of the per-location body. -/
lemma processLocation_shape (w : World) (mode : String) (dryRun : Bool) (now : DateTime)
    (loc : Location) :
    processLocation w mode dryRun now loc =
      ([Event.geocodeCall loc], some PipelineError.resolutionError) ∨
    (∃ gp, processLocation w mode dryRun now loc =
      ([Event.geocodeCall loc, Event.gridCall gp], some PipelineError.fetchError)) ∨
    (∃ gp wp, processLocation w mode dryRun now loc =
      ([Event.geocodeCall loc, Event.gridCall gp, Event.weatherCall wp],
        some PipelineError.fetchError)) ∨
    (∃ gp wp, processLocation w mode dryRun now loc =
      ([Event.geocodeCall loc, Event.gridCall gp, Event.weatherCall wp],
        some PipelineError.normalizationError)) ∨
    (dryRun = true ∧ ∃ gp wp n, processLocation w mode dryRun now loc =
      ([Event.geocodeCall loc, Event.gridCall gp, Event.weatherCall wp, Event.fileWrite n,
        Event.fileRemove n], none)) ∨
    (dryRun = false ∧ ∃ gp wp n, processLocation w mode dryRun now loc =
      ([Event.geocodeCall loc, Event.gridCall gp, Event.weatherCall wp, Event.fileWrite n,
        Event.put n, Event.copyInto, Event.fileRemove n], none)) ∨
    (dryRun = false ∧ ∃ gp wp n, processLocation w mode dryRun now loc =
      ([Event.geocodeCall loc, Event.gridCall gp, Event.weatherCall wp, Event.fileWrite n,
        Event.put n], some PipelineError.loadError)) ∨
    (dryRun = false ∧ ∃ gp wp n, processLocation w mode dryRun now loc =
      ([Event.geocodeCall loc, Event.gridCall gp, Event.weatherCall wp, Event.fileWrite n,
        Event.put n, Event.copyInto], some PipelineError.loadError)) := by
  cases hbb : get_bbox (w.geocode loc) with
  | error e =>
    have he := get_bbox_error_eq _ _ hbb
    subst he
    left
    unfold processLocation
    rw [hbb]
  | ok box =>
    cases hgr : w.grid (gridParams box) with
    | none =>
      right; left
      refine ⟨gridParams box, ?_⟩
      unfold processLocation
      rw [hbb]
      dsimp only
      rw [hgr]
    | some grs =>
      cases hwe : w.weather (weatherParams (grs.map (fun g => g.latitude))
          (grs.map (fun g => g.longitude)) mode) with
      | none =>
        right; right; left
        refine ⟨gridParams box, weatherParams (grs.map (fun g => g.latitude))
          (grs.map (fun g => g.longitude)) mode, ?_⟩
        unfold processLocation
        rw [hbb]
        dsimp only
        rw [hgr]
        dsimp only
        rw [hwe]
      | some resps =>
        cases hpr : parse_responses resps loc.label with
        | error e =>
          have he := parse_responses_error_eq _ _ _ hpr
          subst he
          right; right; right; left
          refine ⟨gridParams box, weatherParams (grs.map (fun g => g.latitude))
            (grs.map (fun g => g.longitude)) mode, ?_⟩
          unfold processLocation
          rw [hbb]
          dsimp only
          rw [hgr]
          dsimp only
          rw [hwe]
          dsimp only
          rw [hpr]
        | ok dfs =>
          cases hdry : dryRun with
          | true =>
            right; right; right; right; left
            refine ⟨rfl, gridParams box, weatherParams (grs.map (fun g => g.latitude))
              (grs.map (fun g => g.longitude)) mode,
              (responses_to_json dfs loc.label mode now).1, ?_⟩
            unfold processLocation
            rw [hbb]
            dsimp only
            rw [hgr]
            dsimp only
            rw [hwe]
            dsimp only
            rw [hpr]
            simp
          | false =>
            cases hput : w.putOk with
            | false =>
              right; right; right; right; right; right; left
              refine ⟨rfl, gridParams box, weatherParams (grs.map (fun g => g.latitude))
                (grs.map (fun g => g.longitude)) mode,
                (responses_to_json dfs loc.label mode now).1, ?_⟩
              unfold processLocation
              rw [hbb]
              dsimp only
              rw [hgr]
              dsimp only
              rw [hwe]
              dsimp only
              rw [hpr]
              simp [upload_to_snowflake, hput]
            | true =>
              cases hcopy : w.copyOk with
              | true =>
                right; right; right; right; right; left
                refine ⟨rfl, gridParams box, weatherParams (grs.map (fun g => g.latitude))
                  (grs.map (fun g => g.longitude)) mode,
                  (responses_to_json dfs loc.label mode now).1, ?_⟩
                unfold processLocation
                rw [hbb]
                dsimp only
                rw [hgr]
                dsimp only
                rw [hwe]
                dsimp only
                rw [hpr]
                simp [upload_to_snowflake, hput, hcopy]
              | false =>
                right; right; right; right; right; right; right
                refine ⟨rfl, gridParams box, weatherParams (grs.map (fun g => g.latitude))
                  (grs.map (fun g => g.longitude)) mode,
                  (responses_to_json dfs loc.label mode now).1, ?_⟩
                unfold processLocation
                rw [hbb]
                dsimp only
                rw [hgr]
                dsimp only
                rw [hwe]
                dsimp only
                rw [hpr]
                simp [upload_to_snowflake, hput, hcopy]

/-- One location's iteration never touches the connection lifecycle. -/
lemma processLocation_connect_close (w : World) (mode : String) (dryRun : Bool)
    (now : DateTime) (loc : Location) :
    Event.connect ∉ (processLocation w mode dryRun now loc).1 ∧
    Event.close ∉ (processLocation w mode dryRun now loc).1 := by
  rcases processLocation_shape w mode dryRun now loc with h | ⟨gp, h⟩ | ⟨gp, wp, h⟩ |
    ⟨gp, wp, h⟩ | ⟨hd, gp, wp, n, h⟩ | ⟨hd, gp, wp, n, h⟩ | ⟨hd, gp, wp, n, h⟩ |
    ⟨hd, gp, wp, n, h⟩ <;> rw [h] <;> simp

/-- The location loop never touches the connection lifecycle. -/
lemma ingestLoop_connect_close (w : World) (mode : String) (dryRun : Bool) (now : DateTime) :
    ∀ locs : List Location, Event.connect ∉ (ingestLoop w mode dryRun now locs).1 ∧
      Event.close ∉ (ingestLoop w mode dryRun now locs).1 := by
  intro locs
  induction locs with
  | nil => simp [ingestLoop]
  | cons loc rest ih =>
    have hpc := processLocation_connect_close w mode dryRun now loc
    rcases hP : processLocation w mode dryRun now loc with ⟨ev, err⟩
    rw [hP] at hpc
    cases err with
    | some e =>
      unfold ingestLoop
      rw [hP]
      exact hpc
    | none =>
      unfold ingestLoop
      rw [hP]
      dsimp only
      constructor
      · intro hmem
        rcases List.mem_append.mp hmem with hm | hm
        · exact hpc.1 hm
        · exact ih.1 hm
      · intro hmem
        rcases List.mem_append.mp hmem with hm | hm
        · exact hpc.2 hm
        · exact ih.2 hm

/-- Dry-run iteration: no warehouse event, and the file events are a
single write/remove pair on success and nothing on failure. -/
lemma processLocation_dry (w : World) (mode : String) (now : DateTime) (loc : Location) :
    (∀ e ∈ (processLocation w mode true now loc).1, e.isWarehouse = false) ∧
    ((processLocation w mode true now loc).2 = none →
      ∃ n, (processLocation w mode true now loc).1.filter Event.isFile =
        [Event.fileWrite n, Event.fileRemove n]) ∧
    ((processLocation w mode true now loc).2 ≠ none →
      (processLocation w mode true now loc).1.filter Event.isFile = []) := by
  rcases processLocation_shape w mode true now loc with h | ⟨gp, h⟩ | ⟨gp, wp, h⟩ |
    ⟨gp, wp, h⟩ | ⟨hd, gp, wp, n, h⟩ | ⟨hd, gp, wp, n, h⟩ | ⟨hd, gp, wp, n, h⟩ |
    ⟨hd, gp, wp, n, h⟩
  · exact ⟨by rw [h]; simp [Event.isWarehouse], by rw [h]; simp,
      by rw [h]; simp [Event.isFile, List.filter]⟩
  · exact ⟨by rw [h]; simp [Event.isWarehouse], by rw [h]; simp,
      by rw [h]; simp [Event.isFile, List.filter]⟩
  · exact ⟨by rw [h]; simp [Event.isWarehouse], by rw [h]; simp,
      by rw [h]; simp [Event.isFile, List.filter]⟩
  · exact ⟨by rw [h]; simp [Event.isWarehouse], by rw [h]; simp,
      by rw [h]; simp [Event.isFile, List.filter]⟩
  · exact ⟨by rw [h]; simp [Event.isWarehouse],
      fun _ => ⟨n, by rw [h]; simp [Event.isFile, List.filter]⟩,
      by rw [h]; simp⟩
  · exact absurd hd (by simp)
  · exact absurd hd (by simp)
  · exact absurd hd (by simp)

/-- Dry-run loop: no warehouse event, and the file events pair up into
write/remove pairs, one pair per processed location. -/
lemma ingestLoop_dry (w : World) (mode : String) (now : DateTime) :
    ∀ locs : List Location,
      (∀ e ∈ (ingestLoop w mode true now locs).1, e.isWarehouse = false) ∧
      ∃ names, (ingestLoop w mode true now locs).1.filter Event.isFile =
          writeRemovePairs names ∧
        ((ingestLoop w mode true now locs).2 = none → names.length = locs.length) := by
  intro locs
  induction locs with
  | nil =>
    refine ⟨by simp [ingestLoop], [], by simp [ingestLoop, writeRemovePairs], by simp⟩
  | cons loc rest ih =>
    obtain ⟨ihw, names, ihf, ihlen⟩ := ih
    have hp := processLocation_dry w mode now loc
    rcases hP : processLocation w mode true now loc with ⟨ev, err⟩
    rw [hP] at hp
    cases err with
    | some e =>
      unfold ingestLoop
      rw [hP]
      refine ⟨hp.1, [], ?_, ?_⟩
      · have hnil := hp.2.2 (by simp)
        simpa [writeRemovePairs] using hnil
      · intro hc
        exact absurd hc (by simp)
    | none =>
      obtain ⟨n, hn⟩ := hp.2.1 rfl
      unfold ingestLoop
      rw [hP]
      dsimp only
      refine ⟨?_, n :: names, ?_, ?_⟩
      · intro e hmem
        rcases List.mem_append.mp hmem with hm | hm
        · exact hp.1 e hm
        · exact ihw e hm
      · rw [List.filter_append, hn, ihf]
        simp [writeRemovePairs]
      · intro hc
        simp only [List.length_cons, ihlen hc]

/-- Claim C1: for every list of configured locations, a dry-run ingest
creates no warehouse connection and invokes neither the stage (PUT) nor
the copy (COPY INTO) operation; the file events of the run are
write/remove pairs — each serialized batch file is subsequently removed
— with one pair per location when the run completes. -/
theorem claim_C1 (w : World) (mode : String) (locations : Option (List Location))
    (now : DateTime) :
    (∀ e ∈ (ingest w mode locations true now).1, e.isWarehouse = false) ∧
    ∃ names, (ingest w mode locations true now).1.filter Event.isFile =
        writeRemovePairs names ∧
      ((ingest w mode locations true now).2 = none →
        names.length = (locations.getD LOCATIONS).length) := by
  have h := ingestLoop_dry w mode now (locations.getD LOCATIONS)
  simpa [ingest] using h

/-- Witness for claim C1: one location, all collaborators succeeding. -/
theorem claim_C1_witness :
    (∀ e ∈ (ingest happyWorld ("history") (some [sampleLoc]) true dt1).1,
      e.isWarehouse = false) ∧
    ∃ names, (ingest happyWorld ("history") (some [sampleLoc]) true dt1).1.filter
        Event.isFile = writeRemovePairs names ∧ names.length = 1 := by
  obtain ⟨hw, names, hf, hlen⟩ := claim_C1 happyWorld ("history") (some [sampleLoc]) dt1
  exact ⟨hw, names, hf, hlen rfl⟩

/-- Claim C5: for every location whose geocoding lookup returns zero
candidates or a first candidate missing the bounding-box field, that
location's iteration stops with the resolution error after only the
geocode call — before any fetch or load call — and writes no file. -/
theorem claim_C5 (w : World) (mode : String) (dryRun : Bool) (now : DateTime)
    (loc : Location)
    (h : w.geocode loc = [] ∨ ∃ c cs, w.geocode loc = c :: cs ∧ c.boundingbox = none) :
    processLocation w mode dryRun now loc =
      ([Event.geocodeCall loc], some PipelineError.resolutionError) ∧
    (∀ p, Event.weatherCall p ∉ (processLocation w mode dryRun now loc).1) ∧
    (∀ n, Event.put n ∉ (processLocation w mode dryRun now loc).1) ∧
    Event.copyInto ∉ (processLocation w mode dryRun now loc).1 ∧
    (∀ n, Event.fileWrite n ∉ (processLocation w mode dryRun now loc).1) := by
  have hbb : get_bbox (w.geocode loc) = Except.error PipelineError.resolutionError := by
    rcases h with h | ⟨c, cs, hcs, hnone⟩
    · rw [h]
      rfl
    · rw [hcs]
      unfold get_bbox
      dsimp only
      rw [hnone]
  have hP : processLocation w mode dryRun now loc =
      ([Event.geocodeCall loc], some PipelineError.resolutionError) := by
    unfold processLocation
    rw [hbb]
  rw [hP]
  exact ⟨rfl, by simp, by simp, by simp, by simp⟩

/-- Witness for claim C5: a world whose geocoding lookup returns zero
candidates. -/
theorem claim_C5_witness :
    processLocation emptyGeoWorld ("history") false dt1 sampleLoc =
      ([Event.geocodeCall sampleLoc], some PipelineError.resolutionError) ∧
    (∀ p, Event.weatherCall p ∉
      (processLocation emptyGeoWorld ("history") false dt1 sampleLoc).1) ∧
    (∀ n, Event.put n ∉ (processLocation emptyGeoWorld ("history") false dt1 sampleLoc).1) ∧
    Event.copyInto ∉ (processLocation emptyGeoWorld ("history") false dt1 sampleLoc).1 ∧
    (∀ n, Event.fileWrite n ∉
      (processLocation emptyGeoWorld ("history") false dt1 sampleLoc).1) :=
  claim_C5 emptyGeoWorld ("history") false dt1 sampleLoc (Or.inl rfl)

/-- Claim C6: for every non-dry run, whatever the collaborators do, the
trace opens the warehouse connection exactly once as its first event —
before any location is processed — and closes it exactly once as its
last event, on every exit path. -/
theorem claim_C6 (w : World) (mode : String) (locations : Option (List Location))
    (now : DateTime) :
    ∃ mid, (ingest w mode locations false now).1 = Event.connect :: mid ++ [Event.close] ∧
      Event.connect ∉ mid ∧ Event.close ∉ mid := by
  refine ⟨(ingestLoop w mode false now (locations.getD LOCATIONS)).1, ?_, ?_, ?_⟩
  · simp [ingest]
  · exact (ingestLoop_connect_close w mode false now (locations.getD LOCATIONS)).1
  · exact (ingestLoop_connect_close w mode false now (locations.getD LOCATIONS)).2

/-- Claim C7: in every location iteration that ends without error the
batch file is removed last, right after the successful load attempt
(right after serialization in dry-run mode); when the load phase raises,
a file was written and no removal ever happens. -/
theorem claim_C7 (w : World) (mode : String) (dryRun : Bool) (now : DateTime)
    (loc : Location) :
    ((processLocation w mode dryRun now loc).2 = none →
      ∃ pre n, (∀ e ∈ pre, e.isFile = false) ∧
        (processLocation w mode dryRun now loc).1 =
          pre ++ (if dryRun = true then [Event.fileWrite n, Event.fileRemove n]
            else [Event.fileWrite n, Event.put n, Event.copyInto, Event.fileRemove n])) ∧
    ((processLocation w mode dryRun now loc).2 = some PipelineError.loadError →
      (∃ n, Event.fileWrite n ∈ (processLocation w mode dryRun now loc).1) ∧
        ∀ n, Event.fileRemove n ∉ (processLocation w mode dryRun now loc).1) := by
  rcases processLocation_shape w mode dryRun now loc with h | ⟨gp, h⟩ | ⟨gp, wp, h⟩ |
    ⟨gp, wp, h⟩ | ⟨hd, gp, wp, n, h⟩ | ⟨hd, gp, wp, n, h⟩ | ⟨hd, gp, wp, n, h⟩ |
    ⟨hd, gp, wp, n, h⟩
  · rw [h]
    exact ⟨by simp, by simp⟩
  · rw [h]
    exact ⟨by simp, by simp⟩
  · rw [h]
    exact ⟨by simp, by simp⟩
  · rw [h]
    exact ⟨by simp, by simp⟩
  · subst hd
    rw [h]
    refine ⟨?_, by simp⟩
    intro _
    refine ⟨[Event.geocodeCall loc, Event.gridCall gp, Event.weatherCall wp], n, ?_, ?_⟩
    · simp [Event.isFile]
    · simp
  · subst hd
    rw [h]
    refine ⟨?_, by simp⟩
    intro _
    refine ⟨[Event.geocodeCall loc, Event.gridCall gp, Event.weatherCall wp], n, ?_, ?_⟩
    · simp [Event.isFile]
    · simp
  · subst hd
    rw [h]
    refine ⟨by simp, ?_⟩
    intro _
    exact ⟨⟨n, by simp⟩, fun m => by simp⟩
  · subst hd
    rw [h]
    refine ⟨by simp, ?_⟩
    intro _
    exact ⟨⟨n, by simp⟩, fun m => by simp⟩

/-- Witness for claim C7: the success shape in a fully-succeeding world
and the no-removal guarantee when the PUT statement fails. -/
theorem claim_C7_witness :
    (∃ pre n, (∀ e ∈ pre, e.isFile = false) ∧
      (processLocation happyWorld ("history") false dt1 sampleLoc).1 =
        pre ++ (if false = true then [Event.fileWrite n, Event.fileRemove n]
          else [Event.fileWrite n, Event.put n, Event.copyInto, Event.fileRemove n])) ∧
    ((∃ n, Event.fileWrite n ∈
        (processLocation putFailWorld ("history") false dt1 sampleLoc).1) ∧
      ∀ n, Event.fileRemove n ∉
        (processLocation putFailWorld ("history") false dt1 sampleLoc).1) :=
  ⟨(claim_C7 happyWorld ("history") false dt1 sampleLoc).1 rfl,
    (claim_C7 putFailWorld ("history") false dt1 sampleLoc).2 rfl⟩

/-- Decimal digit characters are distinct. -/
lemma dchar_inj : ∀ a < 10, ∀ b < 10, dchar a = dchar b → a = b := by decide

/-- Two-digit rendering is injective below 100. -/
lemma pad2_inj (a b : Nat) (ha : a < 100) (hb : b < 100) (h : pad2 a = pad2 b) : a = b := by
  simp only [pad2, List.cons.injEq, and_true] at h
  obtain ⟨h1, h2⟩ := h
  have e1 := dchar_inj _ (Nat.mod_lt _ (by norm_num)) _ (Nat.mod_lt _ (by norm_num)) h1
  have e2 := dchar_inj _ (Nat.mod_lt _ (by norm_num)) _ (Nat.mod_lt _ (by norm_num)) h2
  omega

/-- Four-digit rendering is injective below 10000. -/
lemma pad4_inj (a b : Nat) (ha : a < 10000) (hb : b < 10000) (h : pad4 a = pad4 b) :
    a = b := by
  simp only [pad4, List.cons.injEq, and_true] at h
  obtain ⟨h1, h2, h3, h4⟩ := h
  have e1 := dchar_inj _ (Nat.mod_lt _ (by norm_num)) _ (Nat.mod_lt _ (by norm_num)) h1
  have e2 := dchar_inj _ (Nat.mod_lt _ (by norm_num)) _ (Nat.mod_lt _ (by norm_num)) h2
  have e3 := dchar_inj _ (Nat.mod_lt _ (by norm_num)) _ (Nat.mod_lt _ (by norm_num)) h3
  have e4 := dchar_inj _ (Nat.mod_lt _ (by norm_num)) _ (Nat.mod_lt _ (by norm_num)) h4
  omega

/-- The strftime rendering determines the second-truncated instant. -/
lemma strftimeTS_inj (t1 t2 : DateTime) (h1 : t1.valid) (h2 : t2.valid)
    (h : strftimeTS t1 = strftimeTS t2) : t1.secondsView = t2.secondsView := by
  obtain ⟨hy1, hmo1, hd1, hh1, hmi1, hs1⟩ := h1
  obtain ⟨hy2, hmo2, hd2, hh2, hmi2, hs2⟩ := h2
  unfold strftimeTS at h
  obtain ⟨e1, h⟩ := List.append_inj h rfl
  obtain ⟨e2, h⟩ := List.append_inj h rfl
  obtain ⟨e3, h⟩ := List.append_inj h rfl
  obtain ⟨e0, h⟩ := List.append_inj h rfl
  obtain ⟨e4, h⟩ := List.append_inj h rfl
  obtain ⟨e5, e6⟩ := List.append_inj h rfl
  simp only [DateTime.secondsView, Prod.mk.injEq]
  exact ⟨pad4_inj _ _ hy1 hy2 e1, pad2_inj _ _ hmo1 hmo2 e2, pad2_inj _ _ hd1 hd2 e3,
    pad2_inj _ _ hh1 hh2 e4, pad2_inj _ _ hmi1 hmi2 e5, pad2_inj _ _ hs1 hs2 e6⟩

/-- The strftime rendering depends only on the second-truncated instant. -/
lemma strftimeTS_congr (t1 t2 : DateTime) (ht : t1.secondsView = t2.secondsView) :
    strftimeTS t1 = strftimeTS t2 := by
  simp only [DateTime.secondsView, Prod.mk.injEq] at ht
  obtain ⟨e1, e2, e3, e4, e5, e6⟩ := ht
  unfold strftimeTS
  rw [e1, e2, e3, e4, e5, e6]

/-- Counterexample to claim C9 as stated: the labels "a b" and "ab"
have the same spaces-and-commas-stripped form, yet for the same mode
and run instant the code derives different file names — the name is not
a function of the stripped label, because spaces are replaced with
underscores rather than stripped. -/
theorem claim_C9_counterexample :
    specStrippedLabel (("a b").data) = specStrippedLabel (("ab").data) ∧
    fileName ("a b") ("history") dt1 ≠ fileName ("ab") ("history") dt1 := by decide

/-- Claim C9 (amended): the file name is derived deterministically from
the label with spaces replaced by underscores and commas stripped, the
mode, and the run's UTC timestamp truncated to the second; and two runs
for the same location and mode at different seconds produce distinct
file names. -/
theorem claim_C9 :
    (∀ l1 l2 m : String, ∀ t1 t2 : DateTime, sanitizeLabel l1.data = sanitizeLabel l2.data →
      t1.secondsView = t2.secondsView → fileName l1 m t1 = fileName l2 m t2) ∧
    (∀ l m : String, ∀ t1 t2 : DateTime, t1.valid → t2.valid →
      t1.secondsView ≠ t2.secondsView → fileName l m t1 ≠ fileName l m t2) := by
  constructor
  · intro l1 l2 m t1 t2 hl ht
    unfold fileName
    rw [hl, strftimeTS_congr t1 t2 ht]
  · intro l m t1 t2 h1 h2 hne heq
    apply hne
    unfold fileName at heq
    have heq := List.append_cancel_left heq
    have heq := List.append_cancel_left heq
    have heq := List.append_cancel_left heq
    have heq := List.append_cancel_left heq
    have heq := List.append_cancel_right heq
    exact strftimeTS_inj t1 t2 h1 h2 heq

/-- Witness for claim C9: sub-second changes leave the name unchanged,
a one-second change gives a distinct name. -/
theorem claim_C9_witness :
    fileName ("Atlanta") ("history") dt1 = fileName ("Atlanta") ("history") dt1b ∧
    fileName ("Atlanta") ("history") dt1 ≠ fileName ("Atlanta") ("history") dt2 :=
  ⟨(claim_C9).1 ("Atlanta") ("Atlanta") ("history") dt1 dt1b rfl (by decide),
    (claim_C9).2 ("Atlanta") ("history") dt1 dt2 (by decide) (by decide) (by decide)⟩

end WeatherPipeline
